import Mathlib

/-!
Verification of the AFSMC simulation-and-control engine.

The definitions below are shallow embeddings of the Python sources:
`unified_controller.py` (controller parameters, hexagonal fuzzy membership,
the unified control law), `afsmc_simulation.py` (angle wrapping, motor
dynamics, the Case-1 straight-line simulation loop) and `afsmc_plots.py`
(the settling-time metric).  Machine floats are modelled as real numbers;
a Python function that can raise is modelled with `Except` or `Option`.
-/

open scoped Classical

/-- Controller tuning parameters, mirroring the `ControllerParams` dataclass
of `unified_controller.py`.  The six fuzzy breakpoints are kept as a tuple
exactly as in the source. -/
structure ControllerParams where
  lambda_ : ℝ
  l2 : ℝ
  k_I : ℝ
  phi1 : ℝ
  phi2 : ℝ
  delta : ℝ
  beta_min : ℝ
  beta_max : ℝ
  hfn_breakpoints : ℝ × ℝ × ℝ × ℝ × ℝ × ℝ

/-- The dataclass defaults of `ControllerParams` in `unified_controller.py`. -/
noncomputable def default_params : ControllerParams :=
  ⟨1, 0.5, 0, 1, 1, 0.5, 0.5, 3, ((0 : ℝ), 0.05, 0.10, 0.15, 0.20, 0.25)⟩

/-- Hexagonal fuzzy number membership, translated branch by branch from
`hfn_mu` in `unified_controller.py`.  The Python `**` on floats is modelled
by real `rpow`. -/
noncomputable def hfn_mu (x : ℝ) (xi : ℝ × ℝ × ℝ × ℝ × ℝ × ℝ) (gamma : ℝ) : ℝ :=
  let xi1 := xi.1
  let xi2 := xi.2.1
  let xi3 := xi.2.2.1
  let xi4 := xi.2.2.2.1
  let xi5 := xi.2.2.2.2.1
  let xi6 := xi.2.2.2.2.2
  if x ≤ xi1 ∨ xi6 ≤ x then 0
  else if xi1 < x ∧ x ≤ xi2 then ((x - xi1) / (xi2 - xi1)) ^ gamma
  else if xi2 < x ∧ x ≤ xi3 then 1
  else if xi3 < x ∧ x ≤ xi4 then 1
  else if xi4 < x ∧ x ≤ xi5 then ((xi5 - x) / (xi5 - xi4)) ^ gamma
  else ((xi6 - x) / (xi6 - xi5)) ^ gamma

/-- Adaptive gain map `hfn_beta` of `unified_controller.py`:
x = |e| + 0.5|ė|, then a linear interpolation between beta_min and beta_max
driven by the membership value. -/
noncomputable def hfn_beta (e e_dot : ℝ) (params : ControllerParams) (gamma : ℝ) : ℝ :=
  let x := |e| + 0.5 * |e_dot|
  let mu := hfn_mu x params.hfn_breakpoints gamma
  params.beta_min + (params.beta_max - params.beta_min) * mu

/-- Python `str.upper()`, character-wise upper-casing of the string, used by
the mode dispatch of `compute_omega`. -/
def str_upper (s : String) : String := ⟨s.data.map Char.toUpper⟩

/-- The unified control law `compute_omega` of `unified_controller.py`.
The Python function raises `ValueError` on an unknown mode; this is modelled
by `Except.error`.  Mode comparison uses `upper()`, modelled by
`str_upper`.  `np.hypot` is modelled as `Real.sqrt` of the sum of
squares. -/
noncomputable def compute_omega (mode : String) (y_e e_theta int_e_theta y_e_dot e_theta_dot omega_eq : ℝ)
    (params : ControllerParams) (gamma_hfn : ℝ) : Except String (ℝ × ℝ × ℝ) :=
  let s := params.lambda_ * params.phi1 * y_e + params.l2 * params.phi2 * e_theta
    + params.k_I * int_e_theta
  if str_upper mode = ("SMC" : String) then
    let beta_eff := params.beta_max
    let sw := beta_eff * Real.tanh (s / params.delta)
    Except.ok (omega_eq - sw, s, beta_eff)
  else if str_upper mode = ("AFSMC" : String) then
    let e_comb := Real.sqrt (y_e ^ 2 + e_theta ^ 2)
    let e_comb_dot := Real.sqrt (y_e_dot ^ 2 + e_theta_dot ^ 2)
    let beta_eff := hfn_beta e_comb e_comb_dot params gamma_hfn
    let sw := beta_eff * Real.tanh (s / params.delta)
    Except.ok (omega_eq - sw, s, beta_eff)
  else
    Except.error (("Unknown mode: " : String) ++ mode)

/-- Recognizer for the mode strings that `compute_omega` accepts. -/
def valid_mode (mode : String) : Bool :=
  (str_upper mode == ("SMC" : String)) || (str_upper mode == ("AFSMC" : String))

/-- Backward scan of `compute_settling_time` in `afsmc_plots.py`: the Python
loop `for i in range(len(e) - 1, 0, -1)` checks `np.all(np.abs(e[i:]) < tol)`
and returns `t[i]` on the first success; falling through returns `t[-1]`.
The argument of `settling_scan` is the loop counter `i`; `0` is the
fall-through case. -/
noncomputable def settling_scan (e t : List ℝ) (tol : ℝ) : ℕ → ℝ
  | 0 => (t.getLast?).getD 0
  | i + 1 =>
    if ∀ j : ℕ, i + 1 ≤ j → j < e.length → |e.getD j 0| < tol then t.getD (i + 1) 0
    else settling_scan e t tol i

/-- `compute_settling_time` of `afsmc_plots.py` (default tolerance 0.05 is
passed explicitly by callers here). -/
noncomputable def compute_settling_time (e t : List ℝ) (tol : ℝ) : ℝ :=
  settling_scan e t tol (e.length - 1)

/-- Robot geometry constants (`RobotParams` dataclass of
`afsmc_simulation.py`). -/
structure RobotParams where
  mass : ℝ
  length : ℝ
  width : ℝ
  wheel_spacing : ℝ
  wheel_radius : ℝ
  inertia : ℝ

/-- Motor model constants (`MotorParams` dataclass). -/
structure MotorParams where
  v_max : ℝ
  a_max : ℝ
  zeta : ℝ
  omega_n : ℝ

/-- Scenario configuration (`CaseStudyParams` dataclass). -/
structure CaseStudyParams where
  x_ref0 : ℝ
  y_ref0 : ℝ
  theta_ref0 : ℝ
  x0 : ℝ
  y0 : ℝ
  theta0 : ℝ
  v_cmd : ℝ
  t_end : ℝ
  dt : ℝ

/-- Dataclass defaults of `RobotParams`. -/
noncomputable def default_robot : RobotParams := ⟨1.8, 0.306, 0.281, 0.287, 0.066, 1.35⟩

/-- Dataclass defaults of `MotorParams`. -/
noncomputable def default_motor : MotorParams := ⟨3.5, 5, 0.4, 3⟩

/-- Dataclass defaults of `CaseStudyParams` (the Case-1 line scenario of the
manuscript). -/
noncomputable def default_case : CaseStudyParams :=
  ⟨1, 0, Real.pi / 3, 0.5, 0, Real.pi / 3, 2.5, 20, 0.01⟩

/-- `wrap_angle` of `afsmc_simulation.py`:
`(angle + np.pi) % (2.0 * np.pi) - np.pi`.  The Python float `%` with a
positive divisor m returns `a - m * floor (a / m)`. -/
noncomputable def wrap_angle (angle : ℝ) : ℝ :=
  (angle + Real.pi) - 2 * Real.pi * ((Int.floor ((angle + Real.pi) / (2 * Real.pi))) : ℝ)
    - Real.pi

/-- Python `int()` applied to a float: truncation toward zero. -/
noncomputable def truncInt (q : ℝ) : ℤ := if 0 ≤ q then Int.floor q else Int.ceil q

/-- `n_steps = int(case.t_end / case.dt) + 1` of `simulate_case1`. -/
noncomputable def case1_n_steps (cs : CaseStudyParams) : ℤ :=
  truncInt (cs.t_end / cs.dt) + 1

/-- One motor-dynamics update of `simulate_case1`: the second-order
acceleration, the explicit Euler update of `v_dot` with the `a_max` clamp,
then the update of `v_state` with the `[0, v_max]` clamp.  Returns the new
`(v_state, v_dot)`. -/
noncomputable def motor_step (motor : MotorParams) (v_ref dt v_state v_dot : ℝ) : ℝ × ℝ :=
  let v_ddot := -2 * motor.zeta * motor.omega_n * v_dot
    - motor.omega_n ^ 2 * (v_state - v_ref)
  let v_dot1 := v_dot + v_ddot * dt
  let v_dot2 := if motor.a_max < v_dot1 then motor.a_max
    else if v_dot1 < -motor.a_max then -motor.a_max else v_dot1
  let v_state1 := v_state + v_dot2 * dt
  let v_state2 := if motor.v_max < v_state1 then motor.v_max
    else if v_state1 < 0 then 0 else v_state1
  (v_state2, v_dot2)

/-- The mutable loop state of `simulate_case1` entering iteration k:
pose written at index k-1, the integral and backward-difference
accumulators, and the motor state. -/
structure SimState where
  x : ℝ
  y : ℝ
  theta : ℝ
  int_e_theta : ℝ
  prev_y_e : ℝ
  prev_e_theta : ℝ
  v_state : ℝ
  v_dot : ℝ

/-- The values iteration k of `simulate_case1` writes into the history
arrays: `v[k]`, the errors and control triple at index k-1. -/
structure StepOut where
  v : ℝ
  e_x : ℝ
  e_y : ℝ
  e_theta : ℝ
  omega : ℝ
  s : ℝ
  beta : ℝ

/-- The time base `np.linspace(0.0, t_end, n_steps)`:
`t[k] = t_end * k / (n_steps - 1)`. -/
noncomputable def case1_t (cs : CaseStudyParams) (n k : ℕ) : ℝ :=
  cs.t_end * k / ((n : ℝ) - 1)

/-- Case-1 reference x: straight line at constant heading theta_ref0. -/
noncomputable def case1_x_ref (cs : CaseStudyParams) (n k : ℕ) : ℝ :=
  cs.x_ref0 + cs.v_cmd * case1_t cs n k * Real.cos cs.theta_ref0

/-- Case-1 reference y. -/
noncomputable def case1_y_ref (cs : CaseStudyParams) (n k : ℕ) : ℝ :=
  cs.y_ref0 + cs.v_cmd * case1_t cs n k * Real.sin cs.theta_ref0

/-- One iteration of the main loop of `simulate_case1` (loop index k ≥ 1):
motor dynamics, error-frame transform against the (k-1)-th reference,
backward-difference derivatives, the integral accumulator, the control-law
call (with `omega_eq = omega_ref_base = 0` for the straight line) and the
kinematic update with angle wrapping. -/
noncomputable def case1_step (mode : String) (ctrl : ControllerParams) (cs : CaseStudyParams)
    (motor : MotorParams) (n k : ℕ) (st : SimState) : StepOut × SimState :=
  let dt := cs.dt
  let mv := motor_step motor cs.v_cmd dt st.v_state st.v_dot
  let dx := st.x - case1_x_ref cs n (k - 1)
  let dy := st.y - case1_y_ref cs n (k - 1)
  let e_th := wrap_angle (st.theta - cs.theta_ref0)
  let ex := dx * Real.cos cs.theta_ref0 + dy * Real.sin cs.theta_ref0
  let ey := -dx * Real.sin cs.theta_ref0 + dy * Real.cos cs.theta_ref0
  let y_e_dot := if 0 < dt then (ey - st.prev_y_e) / dt else 0
  let e_theta_dot := if 0 < dt then (e_th - st.prev_e_theta) / dt else 0
  let int_e := st.int_e_theta + e_th * dt
  let tr := (compute_omega mode ey e_th int_e y_e_dot e_theta_dot 0 ctrl 1).toOption.getD
    (0, 0, 0)
  (⟨mv.1, ex, ey, e_th, tr.1, tr.2.1, tr.2.2⟩,
   ⟨st.x + mv.1 * Real.cos st.theta * dt,
    st.y + mv.1 * Real.sin st.theta * dt,
    wrap_angle (st.theta + tr.1 * dt),
    int_e, ey, e_th, mv.1, mv.2⟩)

/-- The state before the first loop iteration of `simulate_case1`:
initial pose, zero accumulators, zero motor state. -/
noncomputable def case1_init (cs : CaseStudyParams) : SimState :=
  ⟨cs.x0, cs.y0, cs.theta0, 0, 0, 0, 0, 0⟩

/-- The loop state after iteration k of `simulate_case1` (`k = 0` is the
state before the loop). -/
noncomputable def case1_states (mode : String) (ctrl : ControllerParams) (cs : CaseStudyParams)
    (motor : MotorParams) (n : ℕ) : ℕ → SimState
  | 0 => case1_init cs
  | k + 1 => (case1_step mode ctrl cs motor n (k + 1) (case1_states mode ctrl cs motor n k)).2

/-- The history values written by iteration k ≥ 1 of `simulate_case1`. -/
noncomputable def case1_out (mode : String) (ctrl : ControllerParams) (cs : CaseStudyParams)
    (motor : MotorParams) (n k : ℕ) : StepOut :=
  (case1_step mode ctrl cs motor n k (case1_states mode ctrl cs motor n (k - 1))).1

/-- The final-sample lateral error `e_y[-1]` written after the loop of
`simulate_case1`. -/
noncomputable def case1_final_e_y (mode : String) (ctrl : ControllerParams) (cs : CaseStudyParams)
    (motor : MotorParams) (n : ℕ) : ℝ :=
  -((case1_states mode ctrl cs motor n (n - 1)).x - case1_x_ref cs n (n - 1))
      * Real.sin cs.theta_ref0
    + ((case1_states mode ctrl cs motor n (n - 1)).y - case1_y_ref cs n (n - 1))
      * Real.cos cs.theta_ref0

/-- The final-sample longitudinal error `e_x[-1]`. -/
noncomputable def case1_final_e_x (mode : String) (ctrl : ControllerParams) (cs : CaseStudyParams)
    (motor : MotorParams) (n : ℕ) : ℝ :=
  ((case1_states mode ctrl cs motor n (n - 1)).x - case1_x_ref cs n (n - 1))
      * Real.cos cs.theta_ref0
    + ((case1_states mode ctrl cs motor n (n - 1)).y - case1_y_ref cs n (n - 1))
      * Real.sin cs.theta_ref0

/-- The final-sample heading error `e_theta[-1]`. -/
noncomputable def case1_final_e_theta (mode : String) (ctrl : ControllerParams)
    (cs : CaseStudyParams) (motor : MotorParams) (n : ℕ) : ℝ :=
  wrap_angle ((case1_states mode ctrl cs motor n (n - 1)).theta - cs.theta_ref0)

/-- The result bundle returned by `simulate_case1`, with each history array
modelled as a function of the sample index.  Indices are populated exactly
as the Python arrays are: `np.zeros` entries that the loop never writes
remain 0 (in particular `omega`, `s` and `beta` at the last index), and the
final error entries are the post-loop recomputation. -/
structure SimResult where
  n_steps : ℕ
  t : ℕ → ℝ
  x : ℕ → ℝ
  y : ℕ → ℝ
  theta : ℕ → ℝ
  x_ref : ℕ → ℝ
  y_ref : ℕ → ℝ
  theta_ref : ℕ → ℝ
  v : ℕ → ℝ
  omega : ℕ → ℝ
  e_x : ℕ → ℝ
  e_y : ℕ → ℝ
  e_theta : ℕ → ℝ
  w_left : ℕ → ℝ
  w_right : ℕ → ℝ
  s : ℕ → ℝ
  beta : ℕ → ℝ

/-- The dictionary built at the end of `simulate_case1`, assembled from the
per-iteration writes. -/
noncomputable def case1_result (mode : String) (ctrl : ControllerParams) (cs : CaseStudyParams)
    (robot : RobotParams) (motor : MotorParams) (n : ℕ) : SimResult :=
  let vfun : ℕ → ℝ := fun k => (case1_states mode ctrl cs motor n k).v_state
  let omegafun : ℕ → ℝ := fun k =>
    if k + 1 < n then (case1_out mode ctrl cs motor n (k + 1)).omega else 0
  let d := robot.wheel_spacing / 2
  { n_steps := n
    t := case1_t cs n
    x := fun k => (case1_states mode ctrl cs motor n k).x
    y := fun k => (case1_states mode ctrl cs motor n k).y
    theta := fun k => (case1_states mode ctrl cs motor n k).theta
    x_ref := case1_x_ref cs n
    y_ref := case1_y_ref cs n
    theta_ref := fun _ => cs.theta_ref0
    v := vfun
    omega := omegafun
    e_x := fun k =>
      if k + 1 < n then (case1_out mode ctrl cs motor n (k + 1)).e_x
      else if k = n - 1 then case1_final_e_x mode ctrl cs motor n else 0
    e_y := fun k =>
      if k + 1 < n then (case1_out mode ctrl cs motor n (k + 1)).e_y
      else if k = n - 1 then case1_final_e_y mode ctrl cs motor n else 0
    e_theta := fun k =>
      if k + 1 < n then (case1_out mode ctrl cs motor n (k + 1)).e_theta
      else if k = n - 1 then case1_final_e_theta mode ctrl cs motor n else 0
    w_left := fun k => (vfun k - omegafun k * d) / robot.wheel_radius
    w_right := fun k => (vfun k + omegafun k * d) / robot.wheel_radius
    s := fun k => if k + 1 < n then (case1_out mode ctrl cs motor n (k + 1)).s else 0
    beta := fun k => if k + 1 < n then (case1_out mode ctrl cs motor n (k + 1)).beta else 0 }

/-- `simulate_case1` of `afsmc_simulation.py`.  The function performs no
configuration validation; it can only fail where the underlying Python
operations raise: `dt = 0` (ZeroDivisionError computing `n_steps`),
`n_steps <= 0` (ValueError/IndexError building the arrays), or an unknown
mode string reaching the first `compute_omega` call (which exists only when
`n_steps >= 2`).  Each failure is modelled as `none`. -/
noncomputable def simulate_case1 (mode : String) (ctrl : ControllerParams) (cs : CaseStudyParams)
    (robot : RobotParams) (motor : MotorParams) : Option SimResult :=
  if cs.dt = 0 then none
  else if case1_n_steps cs ≤ 0 then none
  else if 2 ≤ (case1_n_steps cs).toNat ∧ valid_mode mode = false then none
  else some (case1_result mode ctrl cs robot motor (case1_n_steps cs).toNat)

/-- A Case-1 configuration with `t_end = 0` (invalid per the spec) and the
other fields at their dataclass defaults. -/
noncomputable def case_t_end_zero : CaseStudyParams :=
  ⟨1, 0, Real.pi / 3, 0.5, 0, Real.pi / 3, 2.5, 0, 0.01⟩

/-- A Case-1 configuration whose initial heading is exactly pi, with a zero
reference heading and zero commanded speed, over two integration steps. -/
noncomputable def case_theta_pi : CaseStudyParams :=
  ⟨0, 0, 0, 0, 0, Real.pi, 0, 0.02, 0.01⟩

/-- Controller parameters with all surface gains zero (lambda, l2, k_I,
phi1, phi2 = 0) and the remaining fields at their defaults: the sliding
variable is identically 0, so the commanded turn rate is 0. -/
noncomputable def zero_gain_params : ControllerParams :=
  ⟨0, 0, 0, 0, 0, 0.5, 0.5, 3, ((0 : ℝ), 0.05, 0.10, 0.15, 0.20, 0.25)⟩

/-- Controller parameters satisfying the data-model invariants of the spec
(delta > 0, beta_min <= beta_max, non-decreasing breakpoints) with a
negative gain bound beta_max = beta_min = -1. -/
noncomputable def neg_beta_params : ControllerParams :=
  ⟨0, 0, 0, 0, 0, 1, -1, -1, ((0 : ℝ), 0, 0, 0, 0, 0)⟩

theorem tanh_abs_le_one (x : ℝ) : |Real.tanh x| ≤ 1 := by
  rw [Real.tanh_eq_sinh_div_cosh, abs_div, abs_of_pos (Real.cosh_pos x)]
  rw [div_le_one (Real.cosh_pos x), abs_le]
  constructor
  · have h := Real.sinh_lt_cosh (-x)
    rw [Real.sinh_neg, Real.cosh_neg] at h
    linarith
  · exact (Real.sinh_lt_cosh x).le

theorem wrap_angle_mem (a : ℝ) : -Real.pi ≤ wrap_angle a ∧ wrap_angle a < Real.pi := by
  have h2 : (0 : ℝ) < 2 * Real.pi := Real.two_pi_pos
  set q := (a + Real.pi) / (2 * Real.pi) with hq
  have hmul : 2 * Real.pi * q = a + Real.pi := by
    rw [hq]
    field_simp
  have h1 := Int.floor_le q
  have h3 := Int.lt_floor_add_one q
  unfold wrap_angle
  rw [← hq]
  constructor
  · nlinarith
  · nlinarith

theorem wrap_angle_pi : wrap_angle Real.pi = -Real.pi := by
  have h2 : (2 * Real.pi) ≠ 0 := Real.two_pi_pos.ne'
  have hone : (Real.pi + Real.pi) / (2 * Real.pi) = 1 := by
    field_simp
    ring
  unfold wrap_angle
  rw [hone, Int.floor_one]
  push_cast
  ring

theorem hfn_mu_mem (xi1 xi2 xi3 xi4 xi5 xi6 x : ℝ) :
    0 ≤ hfn_mu x (xi1, xi2, xi3, xi4, xi5, xi6) 1 ∧
      hfn_mu x (xi1, xi2, xi3, xi4, xi5, xi6) 1 ≤ 1 := by
  unfold hfn_mu
  simp only
  split_ifs with h1 h2 h3 h4 h5
  · exact ⟨le_refl 0, zero_le_one⟩
  · rw [Real.rpow_one]
    have hd : 0 < xi2 - xi1 := by linarith [h2.1, h2.2]
    constructor
    · exact div_nonneg (by linarith [h2.1]) hd.le
    · rw [div_le_one hd]
      linarith [h2.2]
  · exact ⟨zero_le_one, le_refl 1⟩
  · exact ⟨zero_le_one, le_refl 1⟩
  · rw [Real.rpow_one]
    have hd : 0 < xi5 - xi4 := by linarith [h5.1, h5.2]
    constructor
    · exact div_nonneg (by linarith [h5.2]) hd.le
    · rw [div_le_one hd]
      linarith [h5.1]
  · push_neg at h1 h2 h3 h4 h5
    have hx2 : xi2 < x := h2 h1.1
    have hx3 : xi3 < x := h3 hx2
    have hx4 : xi4 < x := h4 hx3
    have hx5 : xi5 < x := h5 hx4
    rw [Real.rpow_one]
    have hd : 0 < xi6 - xi5 := by linarith [h1.2]
    constructor
    · exact div_nonneg (by linarith [h1.2]) hd.le
    · rw [div_le_one hd]
      linarith

theorem compute_omega_smc (mode : String) (h : str_upper mode = ("SMC" : String))
    (y_e e_theta int_e_theta y_e_dot e_theta_dot omega_eq : ℝ) (p : ControllerParams)
    (g : ℝ) :
    compute_omega mode y_e e_theta int_e_theta y_e_dot e_theta_dot omega_eq p g =
      Except.ok
        (omega_eq - p.beta_max * Real.tanh
          ((p.lambda_ * p.phi1 * y_e + p.l2 * p.phi2 * e_theta + p.k_I * int_e_theta)
            / p.delta),
         p.lambda_ * p.phi1 * y_e + p.l2 * p.phi2 * e_theta + p.k_I * int_e_theta,
         p.beta_max) := by
  unfold compute_omega
  rw [if_pos h]

theorem compute_omega_afsmc (mode : String) (h1 : str_upper mode ≠ ("SMC" : String))
    (h2 : str_upper mode = ("AFSMC" : String))
    (y_e e_theta int_e_theta y_e_dot e_theta_dot omega_eq : ℝ) (p : ControllerParams)
    (g : ℝ) :
    compute_omega mode y_e e_theta int_e_theta y_e_dot e_theta_dot omega_eq p g =
      Except.ok
        (omega_eq - hfn_beta (Real.sqrt (y_e ^ 2 + e_theta ^ 2))
            (Real.sqrt (y_e_dot ^ 2 + e_theta_dot ^ 2)) p g * Real.tanh
          ((p.lambda_ * p.phi1 * y_e + p.l2 * p.phi2 * e_theta + p.k_I * int_e_theta)
            / p.delta),
         p.lambda_ * p.phi1 * y_e + p.l2 * p.phi2 * e_theta + p.k_I * int_e_theta,
         hfn_beta (Real.sqrt (y_e ^ 2 + e_theta ^ 2))
           (Real.sqrt (y_e_dot ^ 2 + e_theta_dot ^ 2)) p g) := by
  unfold compute_omega
  rw [if_neg h1, if_pos h2]

theorem compute_omega_unknown (mode : String) (h1 : str_upper mode ≠ ("SMC" : String))
    (h2 : str_upper mode ≠ ("AFSMC" : String))
    (y_e e_theta int_e_theta y_e_dot e_theta_dot omega_eq : ℝ) (p : ControllerParams)
    (g : ℝ) :
    compute_omega mode y_e e_theta int_e_theta y_e_dot e_theta_dot omega_eq p g =
      Except.error (("Unknown mode: " : String) ++ mode) := by
  unfold compute_omega
  rw [if_neg h1, if_neg h2]

theorem valid_mode_iff (mode : String) :
    valid_mode mode = true ↔
      (str_upper mode = ("SMC" : String) ∨ str_upper mode = ("AFSMC" : String)) := by
  simp [valid_mode]

theorem compute_omega_ok_of_valid (mode : String) (h : valid_mode mode = true)
    (y_e e_theta int_e_theta y_e_dot e_theta_dot omega_eq : ℝ) (p : ControllerParams)
    (g : ℝ) :
    compute_omega mode y_e e_theta int_e_theta y_e_dot e_theta_dot omega_eq p g =
      Except.ok (Option.getD (Except.toOption
        (compute_omega mode y_e e_theta int_e_theta y_e_dot e_theta_dot omega_eq p g))
        (0, 0, 0)) := by
  rcases (valid_mode_iff mode).mp h with hs | ha
  · rw [compute_omega_smc mode hs]
    rfl
  · by_cases hs : str_upper mode = ("SMC" : String)
    · rw [compute_omega_smc mode hs]
      rfl
    · rw [compute_omega_afsmc mode hs ha]
      rfl

theorem hfn_mu_branch_up (xi1 xi2 xi3 xi4 xi5 xi6 gamma x : ℝ)
    (hl : xi1 < x) (hu : x ≤ xi2) (h6 : x < xi6) :
    hfn_mu x (xi1, xi2, xi3, xi4, xi5, xi6) gamma = ((x - xi1) / (xi2 - xi1)) ^ gamma := by
  unfold hfn_mu
  simp only
  rw [if_neg (by push_neg; exact ⟨hl, h6⟩), if_pos ⟨hl, hu⟩]

theorem hfn_mu_branch_plateau (xi1 xi2 xi3 xi4 xi5 xi6 gamma x : ℝ)
    (h12 : xi1 ≤ xi2) (h2 : xi2 < x) (h4 : x ≤ xi4) (h6 : x < xi6) :
    hfn_mu x (xi1, xi2, xi3, xi4, xi5, xi6) gamma = 1 := by
  unfold hfn_mu
  simp only
  rw [if_neg (by push_neg; exact ⟨lt_of_le_of_lt h12 h2, h6⟩)]
  rw [if_neg (fun hc => absurd hc.2 (not_le.mpr h2))]
  by_cases h3 : x ≤ xi3
  · rw [if_pos ⟨h2, h3⟩]
  · rw [if_neg (fun hc => absurd hc.2 h3), if_pos ⟨not_le.mp h3, h4⟩]

theorem hfn_mu_branch_mid (xi1 xi2 xi3 xi4 xi5 xi6 gamma x : ℝ)
    (h12 : xi1 ≤ xi2) (h23 : xi2 ≤ xi3) (h34 : xi3 ≤ xi4)
    (h4 : xi4 < x) (h5 : x ≤ xi5) (h6 : x < xi6) :
    hfn_mu x (xi1, xi2, xi3, xi4, xi5, xi6) gamma = ((xi5 - x) / (xi5 - xi4)) ^ gamma := by
  unfold hfn_mu
  simp only
  rw [if_neg (by push_neg; constructor <;> linarith)]
  rw [if_neg (fun hc => absurd hc.2 (not_le.mpr (by linarith)))]
  rw [if_neg (fun hc => absurd hc.2 (not_le.mpr (by linarith)))]
  rw [if_neg (fun hc => absurd hc.2 (not_le.mpr h4))]
  rw [if_pos ⟨h4, h5⟩]

theorem hfn_mu_branch_down (xi1 xi2 xi3 xi4 xi5 xi6 gamma x : ℝ)
    (h12 : xi1 ≤ xi2) (h23 : xi2 ≤ xi3) (h34 : xi3 ≤ xi4) (h45 : xi4 ≤ xi5)
    (h5 : xi5 < x) (h6 : x < xi6) :
    hfn_mu x (xi1, xi2, xi3, xi4, xi5, xi6) gamma = ((xi6 - x) / (xi6 - xi5)) ^ gamma := by
  unfold hfn_mu
  simp only
  rw [if_neg (by push_neg; constructor <;> linarith)]
  rw [if_neg (fun hc => absurd hc.2 (not_le.mpr (by linarith)))]
  rw [if_neg (fun hc => absurd hc.2 (not_le.mpr (by linarith)))]
  rw [if_neg (fun hc => absurd hc.2 (not_le.mpr (by linarith)))]
  rw [if_neg (fun hc => absurd hc.2 (not_le.mpr h5))]

theorem settling_scan_stuck (e t : List ℝ) (tol : ℝ) (h0 : 0 < e.length)
    (hbad : ¬ |e.getD (e.length - 1) 0| < tol) :
    ∀ i, i ≤ e.length - 1 → settling_scan e t tol i = (t.getLast?).getD 0 := by
  intro i
  induction i with
  | zero => intro _; rw [settling_scan]
  | succ i ih =>
    intro hle
    rw [settling_scan, if_neg, ih (by omega)]
    intro hall
    exact hbad (hall (e.length - 1) (by omega) (by omega))

theorem compute_settling_time_eq_last (e t : List ℝ) (tol : ℝ)
    (hlen : e.length = t.length) :
    compute_settling_time e t tol = (t.getLast?).getD 0 := by
  unfold compute_settling_time
  rcases Nat.eq_zero_or_pos e.length with h0 | h0
  · rw [h0]
    rw [settling_scan]
  · by_cases hg : |e.getD (e.length - 1) 0| < tol
    · rcases Nat.eq_zero_or_pos (e.length - 1) with h1 | h1
      · rw [h1, settling_scan]
      · obtain ⟨i, hi⟩ : ∃ i, e.length - 1 = i + 1 := ⟨e.length - 2, by omega⟩
        rw [hi, settling_scan, if_pos]
        · rw [← hi, hlen, List.getD_eq_getElem?_getD, List.getLast?_eq_getElem?]
        · intro j hj1 hj2
          have hj : j = e.length - 1 := by omega
          rw [hj]
          exact hg
    · exact settling_scan_stuck e t tol h0 hg (e.length - 1) le_rfl

theorem abs_clamp_le (a x : ℝ) (ha : 0 < a) :
    |if a < x then a else if x < -a then -a else x| ≤ a := by
  split_ifs with h1 h2
  · rw [abs_of_pos ha]
  · rw [abs_neg, abs_of_pos ha]
  · rw [abs_le]
    exact ⟨by linarith [not_lt.mp h2], by linarith [not_lt.mp h1]⟩

theorem clamp_mem (vmax x : ℝ) (hv : 0 ≤ vmax) :
    0 ≤ (if vmax < x then vmax else if x < 0 then (0 : ℝ) else x) ∧
      (if vmax < x then vmax else if x < 0 then (0 : ℝ) else x) ≤ vmax := by
  split_ifs with h1 h2
  · exact ⟨hv, le_refl _⟩
  · exact ⟨le_refl 0, hv⟩
  · exact ⟨not_lt.mp h2, (not_lt.mp h1)⟩

theorem motor_step_bounds (motor : MotorParams) (hv : 0 < motor.v_max)
    (ha : 0 < motor.a_max) (v_ref dt vs vd : ℝ) :
    0 ≤ (motor_step motor v_ref dt vs vd).1 ∧
      (motor_step motor v_ref dt vs vd).1 ≤ motor.v_max ∧
      |(motor_step motor v_ref dt vs vd).2| ≤ motor.a_max := by
  unfold motor_step
  simp only
  exact ⟨(clamp_mem _ _ hv.le).1, (clamp_mem _ _ hv.le).2, abs_clamp_le _ _ ha⟩

theorem case1_step_snd_theta (mode : String) (ctrl : ControllerParams) (cs : CaseStudyParams)
    (motor : MotorParams) (n k : ℕ) (st : SimState) :
    (case1_step mode ctrl cs motor n k st).2.theta =
      wrap_angle (st.theta + (case1_step mode ctrl cs motor n k st).1.omega * cs.dt) := rfl

theorem case1_step_snd_v (mode : String) (ctrl : ControllerParams) (cs : CaseStudyParams)
    (motor : MotorParams) (n k : ℕ) (st : SimState) :
    (case1_step mode ctrl cs motor n k st).2.v_state =
      (motor_step motor cs.v_cmd cs.dt st.v_state st.v_dot).1 := rfl

theorem case1_step_snd_v_dot (mode : String) (ctrl : ControllerParams) (cs : CaseStudyParams)
    (motor : MotorParams) (n k : ℕ) (st : SimState) :
    (case1_step mode ctrl cs motor n k st).2.v_dot =
      (motor_step motor cs.v_cmd cs.dt st.v_state st.v_dot).2 := rfl

theorem simulate_case1_eq_some (mode : String) (ctrl : ControllerParams) (cs : CaseStudyParams)
    (robot : RobotParams) (motor : MotorParams) (h1 : cs.dt ≠ 0)
    (h2 : 0 < case1_n_steps cs)
    (h3 : valid_mode mode = true ∨ (case1_n_steps cs).toNat < 2) :
    simulate_case1 mode ctrl cs robot motor =
      some (case1_result mode ctrl cs robot motor (case1_n_steps cs).toNat) := by
  unfold simulate_case1
  rw [if_neg h1, if_neg (not_le.mpr h2), if_neg]
  rcases h3 with hvalid | hsmall
  · intro hc
    rw [hvalid] at hc
    exact Bool.noConfusion hc.2
  · intro hc
    exact absurd hc.1 (not_le.mpr hsmall)

theorem simulate_case1_isSome_iff (mode : String) (ctrl : ControllerParams)
    (cs : CaseStudyParams) (robot : RobotParams) (motor : MotorParams) :
    (simulate_case1 mode ctrl cs robot motor).isSome = true ↔
      (cs.dt ≠ 0 ∧ 0 < case1_n_steps cs ∧
        (valid_mode mode = true ∨ (case1_n_steps cs).toNat < 2)) := by
  constructor
  · intro h
    unfold simulate_case1 at h
    split_ifs at h with hd hn hm
    · simp at h
    · simp at h
    · simp at h
    · refine ⟨hd, by omega, ?_⟩
      by_cases hv : valid_mode mode = true
      · exact Or.inl hv
      · right
        by_contra hc
        exact hm ⟨by omega, by revert hv; cases valid_mode mode <;> simp⟩
  · intro ⟨h1, h2, h3⟩
    rw [simulate_case1_eq_some mode ctrl cs robot motor h1 h2 h3]
    rfl

theorem n_steps_default : case1_n_steps default_case = 2001 := by
  have h1 : default_case.t_end / default_case.dt = ((2000 : ℤ) : ℝ) := by
    show (20 : ℝ) / (0.01 : ℝ) = ((2000 : ℤ) : ℝ)
    norm_num
  unfold case1_n_steps truncInt
  rw [h1, if_pos (by positivity), Int.floor_intCast]
  norm_num

theorem n_steps_t_end_zero : case1_n_steps case_t_end_zero = 1 := by
  have h1 : case_t_end_zero.t_end / case_t_end_zero.dt = ((0 : ℤ) : ℝ) := by
    show (0 : ℝ) / (0.01 : ℝ) = ((0 : ℤ) : ℝ)
    norm_num
  unfold case1_n_steps truncInt
  rw [h1, if_pos (by norm_num), Int.floor_intCast]
  norm_num

theorem n_steps_theta_pi : case1_n_steps case_theta_pi = 3 := by
  have h1 : case_theta_pi.t_end / case_theta_pi.dt = ((2 : ℤ) : ℝ) := by
    show (0.02 : ℝ) / (0.01 : ℝ) = ((2 : ℤ) : ℝ)
    norm_num
  unfold case1_n_steps truncInt
  rw [h1, if_pos (by positivity), Int.floor_intCast]
  norm_num

theorem sim_default_eq : simulate_case1 ("SMC") default_params default_case default_robot
    default_motor =
    some (case1_result ("SMC") default_params default_case default_robot default_motor 2001) := by
  have h := simulate_case1_eq_some ("SMC") default_params default_case default_robot
    default_motor (by show (0.01 : ℝ) ≠ 0; norm_num) (by rw [n_steps_default]; norm_num)
    (Or.inl (by decide))
  rw [n_steps_default] at h
  exact h

theorem sim_t_end_zero_eq : simulate_case1 ("SMC") default_params case_t_end_zero default_robot
    default_motor =
    some (case1_result ("SMC") default_params case_t_end_zero default_robot default_motor 1) := by
  have h := simulate_case1_eq_some ("SMC") default_params case_t_end_zero default_robot
    default_motor (by show (0.01 : ℝ) ≠ 0; norm_num) (by rw [n_steps_t_end_zero]; norm_num)
    (Or.inl (by decide))
  rw [n_steps_t_end_zero] at h
  exact h

theorem sim_theta_pi_eq : simulate_case1 ("SMC") zero_gain_params case_theta_pi default_robot
    default_motor =
    some (case1_result ("SMC") zero_gain_params case_theta_pi default_robot default_motor 3) := by
  have h := simulate_case1_eq_some ("SMC") zero_gain_params case_theta_pi default_robot
    default_motor (by show (0.01 : ℝ) ≠ 0; norm_num) (by rw [n_steps_theta_pi]; norm_num)
    (Or.inl (by decide))
  rw [n_steps_theta_pi] at h
  exact h

theorem compute_omega_zero_gain (ye eth ie yd ed oe g : ℝ) :
    compute_omega ("SMC") ye eth ie yd ed oe zero_gain_params g = Except.ok (oe, 0, 3) := by
  rw [compute_omega_smc ("SMC") (by decide)]
  norm_num [zero_gain_params, Real.tanh_zero]

theorem case1_step_zero_gain_omega (cs : CaseStudyParams) (motor : MotorParams) (n k : ℕ)
    (st : SimState) :
    (case1_step ("SMC") zero_gain_params cs motor n k st).1.omega = 0 := by
  unfold case1_step
  simp only [compute_omega_zero_gain]
  rfl

theorem case1_step_fst_e_y (mode : String) (ctrl : ControllerParams) (cs : CaseStudyParams)
    (motor : MotorParams) (n k : ℕ) (st : SimState) :
    (case1_step mode ctrl cs motor n k st).1.e_y =
      -(st.x - case1_x_ref cs n (k - 1)) * Real.sin cs.theta_ref0
        + (st.y - case1_y_ref cs n (k - 1)) * Real.cos cs.theta_ref0 := rfl

theorem theta_pi_run_theta1 :
    (case1_result ("SMC") zero_gain_params case_theta_pi default_robot default_motor 3).theta 1
      = -Real.pi := by
  show (case1_states ("SMC") zero_gain_params case_theta_pi default_motor 3 1).theta = -Real.pi
  have h01 : (1 : ℕ) = 0 + 1 := rfl
  rw [h01, case1_states, case1_step_snd_theta, case1_states]
  rw [case1_step_zero_gain_omega]
  have harg : (case1_init case_theta_pi).theta + 0 * case_theta_pi.dt = Real.pi := by
    simp [case1_init, case_theta_pi]
  rw [harg, wrap_angle_pi]

theorem default_run_e_y0 :
    (case1_result ("SMC") default_params default_case default_robot default_motor 2001).e_y 0
      = Real.sqrt 3 / 4 := by
  show (if 0 + 1 < 2001
      then (case1_out ("SMC") default_params default_case default_motor 2001 1).e_y
      else if 0 = 2001 - 1
        then case1_final_e_y ("SMC") default_params default_case default_motor 2001 else 0)
    = Real.sqrt 3 / 4
  rw [if_pos (by norm_num)]
  unfold case1_out
  rw [case1_step_fst_e_y]
  have h0 : (1 : ℕ) - 1 = 0 := rfl
  rw [h0, case1_states]
  simp only [case1_init, case1_x_ref, case1_y_ref, case1_t, default_case]
  push_cast
  rw [Real.sin_pi_div_three]
  ring_nf

theorem case1_result_theta_eq (mode : String) (ctrl : ControllerParams) (cs : CaseStudyParams)
    (robot : RobotParams) (motor : MotorParams) (n k : ℕ) :
    (case1_result mode ctrl cs robot motor n).theta k =
      (case1_states mode ctrl cs motor n k).theta := rfl

theorem case1_result_v_eq (mode : String) (ctrl : ControllerParams) (cs : CaseStudyParams)
    (robot : RobotParams) (motor : MotorParams) (n k : ℕ) :
    (case1_result mode ctrl cs robot motor n).v k =
      (case1_states mode ctrl cs motor n k).v_state := rfl

theorem case1_result_omega_eq (mode : String) (ctrl : ControllerParams) (cs : CaseStudyParams)
    (robot : RobotParams) (motor : MotorParams) (n k : ℕ) :
    (case1_result mode ctrl cs robot motor n).omega k =
      (if k + 1 < n then (case1_out mode ctrl cs motor n (k + 1)).omega else 0) := rfl

theorem case1_result_s_eq (mode : String) (ctrl : ControllerParams) (cs : CaseStudyParams)
    (robot : RobotParams) (motor : MotorParams) (n k : ℕ) :
    (case1_result mode ctrl cs robot motor n).s k =
      (if k + 1 < n then (case1_out mode ctrl cs motor n (k + 1)).s else 0) := rfl

theorem case1_result_beta_eq (mode : String) (ctrl : ControllerParams) (cs : CaseStudyParams)
    (robot : RobotParams) (motor : MotorParams) (n k : ℕ) :
    (case1_result mode ctrl cs robot motor n).beta k =
      (if k + 1 < n then (case1_out mode ctrl cs motor n (k + 1)).beta else 0) := rfl

theorem simulate_case1_some_inv (mode : String) (ctrl : ControllerParams)
    (cs : CaseStudyParams) (robot : RobotParams) (motor : MotorParams) (res : SimResult)
    (h : simulate_case1 mode ctrl cs robot motor = some res) :
    res = case1_result mode ctrl cs robot motor ((case1_n_steps cs).toNat) := by
  unfold simulate_case1 at h
  split_ifs at h
  exact (Option.some.inj h).symm

theorem hfn_beta_mem (e ed : ℝ) (p : ControllerParams) (hbb : p.beta_min ≤ p.beta_max) :
    p.beta_min ≤ hfn_beta e ed p 1 ∧ hfn_beta e ed p 1 ≤ p.beta_max := by
  unfold hfn_beta
  simp only
  obtain ⟨h0, h1⟩ := hfn_mu_mem p.hfn_breakpoints.1 p.hfn_breakpoints.2.1
    p.hfn_breakpoints.2.2.1 p.hfn_breakpoints.2.2.2.1 p.hfn_breakpoints.2.2.2.2.1
    p.hfn_breakpoints.2.2.2.2.2 (|e| + 0.5 * |ed|)
  constructor <;> nlinarith

theorem sqrt3_lb : (1.732 : ℝ) < Real.sqrt 3 := by
  have h : (1.732 : ℝ) = Real.sqrt (1.732 ^ 2) := (Real.sqrt_sq (by norm_num)).symm
  rw [h]
  exact Real.sqrt_lt_sqrt (by norm_num) (by norm_num)

theorem sqrt3_ub : Real.sqrt 3 < 1.7321 := by
  have h : (1.7321 : ℝ) = Real.sqrt (1.7321 ^ 2) := (Real.sqrt_sq (by norm_num)).symm
  rw [h]
  exact Real.sqrt_lt_sqrt (by norm_num) (by norm_num)

theorem case1_out_is_control_value (mode : String) (ctrl : ControllerParams)
    (cs : CaseStudyParams) (motor : MotorParams) (n k : ℕ) (hv : valid_mode mode = true) :
    ∃ ye eth ie yd ed : ℝ,
      compute_omega mode ye eth ie yd ed 0 ctrl 1 =
        Except.ok ((case1_out mode ctrl cs motor n k).omega,
          (case1_out mode ctrl cs motor n k).s, (case1_out mode ctrl cs motor n k).beta) := by
  simp only [case1_out, case1_step]
  exact ⟨_, _, _, _, _, compute_omega_ok_of_valid mode hv _ _ _ _ _ 0 ctrl 1⟩

/-- C1: the settling-time metric is claimed to return the earliest time index
after which the error stays below the tolerance.  The code instead returns
the final time on every input: its backward scan returns on the first
success, which is the weakest (last-sample) test.  At e = [1, 0, 0],
t = [0, 1, 2], tol = 0.05 the code yields t[2] = 2, though the series is
settled from index 1 on; and in general the metric equals the last entry of
the time vector whenever e and t have equal length. -/
theorem c1_settling_time_always_final :
    compute_settling_time ([1, 0, 0] : List ℝ) ([0, 1, 2] : List ℝ) 0.05 = 2 ∧
      ∀ (e t : List ℝ) (tol : ℝ), e.length = t.length →
        compute_settling_time e t tol = (t.getLast?).getD 0 := by
  constructor
  · rw [compute_settling_time_eq_last ([1, 0, 0] : List ℝ) ([0, 1, 2] : List ℝ) 0.05 rfl]
    rfl
  · exact compute_settling_time_eq_last

/-- C1 witness: the general part of the theorem applied at e = [5], t = [7]. -/
theorem c1_witness :
    compute_settling_time ([5] : List ℝ) ([7] : List ℝ) 0.05 =
      (([7] : List ℝ).getLast?).getD 0 :=
  c1_settling_time_always_final.2 [5] [7] 0.05 rfl

/-- C2 (amended): for every configuration accepted by `simulate_case1` and
every step k ≥ 1, the recorded heading theta[k] lies in the half-open
interval [−π, π) — the angle normalizer maps any real heading into
[−π, π), with π itself sent to −π (not into (−π, π] as claimed). -/
theorem c2_theta_wrapped_into_Ico (mode : String) (ctrl : ControllerParams)
    (cs : CaseStudyParams) (robot : RobotParams) (motor : MotorParams) (res : SimResult)
    (h : simulate_case1 mode ctrl cs robot motor = some res) (k : ℕ) :
    -Real.pi ≤ res.theta (k + 1) ∧ res.theta (k + 1) < Real.pi := by
  rw [simulate_case1_some_inv mode ctrl cs robot motor res h]
  rw [case1_result_theta_eq, case1_states, case1_step_snd_theta]
  exact wrap_angle_mem _

/-- C2 witness: the theorem applied to the one-sample run with t_end = 0. -/
theorem c2_witness :
    -Real.pi ≤ (case1_result ("SMC") default_params case_t_end_zero default_robot
        default_motor 1).theta 1 ∧
      (case1_result ("SMC") default_params case_t_end_zero default_robot
        default_motor 1).theta 1 < Real.pi :=
  c2_theta_wrapped_into_Ico ("SMC") default_params case_t_end_zero default_robot default_motor
    _ sim_t_end_zero_eq 0

/-- C2 counterexample: a run whose initial heading is exactly π (zero surface
gains, zero commanded turn rate) records theta[1] = wrap(π) = −π, which is
not in the claimed interval (−π, π]. -/
theorem c2_counterexample :
    simulate_case1 ("SMC") zero_gain_params case_theta_pi default_robot default_motor =
        some (case1_result ("SMC") zero_gain_params case_theta_pi default_robot
          default_motor 3) ∧
      (case1_result ("SMC") zero_gain_params case_theta_pi default_robot
        default_motor 3).theta 1 = -Real.pi ∧
      ¬ (-Real.pi < (case1_result ("SMC") zero_gain_params case_theta_pi default_robot
            default_motor 3).theta 1 ∧
          (case1_result ("SMC") zero_gain_params case_theta_pi default_robot
            default_motor 3).theta 1 ≤ Real.pi) := by
  refine ⟨sim_theta_pi_eq, theta_pi_run_theta1, ?_⟩
  rw [theta_pi_run_theta1]
  intro hc
  exact lt_irrefl _ hc.1

/-- C3 (amended): `simulate_case1` has no validation boundary.  A run
produces a bundle exactly when the underlying operations do not raise:
dt ≠ 0, the step count floor(t_end/dt)+1 is positive, and the mode is
accepted whenever at least one loop iteration exists.  In particular the
invalid configuration t_end = 0 (see the counterexample) completes and
returns a full one-sample bundle, and neither the wheel radius nor the
breakpoint ordering is ever checked. -/
theorem c3_no_validation_boundary (mode : String) (ctrl : ControllerParams)
    (cs : CaseStudyParams) (robot : RobotParams) (motor : MotorParams) :
    (simulate_case1 mode ctrl cs robot motor).isSome = true ↔
      (cs.dt ≠ 0 ∧ 0 < case1_n_steps cs ∧
        (valid_mode mode = true ∨ (case1_n_steps cs).toNat < 2)) :=
  simulate_case1_isSome_iff mode ctrl cs robot motor

/-- C3 counterexample: t_end = 0 is an invalid configuration per the claim
(t_end ≤ 0), yet the simulation does not fail at any validation boundary:
it returns a result bundle. -/
theorem c3_counterexample :
    case_t_end_zero.t_end ≤ 0 ∧
      (simulate_case1 ("SMC") default_params case_t_end_zero default_robot
        default_motor).isSome = true := by
  constructor
  · exact le_refl 0
  · rw [sim_t_end_zero_eq]
    rfl

/-- C4 (amended): the control-law triple (omega, s, beta) is recorded at
indices 0 .. n_steps−2 only: each such index holds the result of a
`compute_omega` call, while the last index n_steps−1 of the omega, s and
beta histories retains the `np.zeros` initialization value 0 (and the wheel
velocity mapper consumes that 0). -/
theorem c4_triple_recorded_up_to_penultimate (mode : String) (ctrl : ControllerParams)
    (cs : CaseStudyParams) (robot : RobotParams) (motor : MotorParams) (n i : ℕ)
    (hv : valid_mode mode = true) (hi : i + 1 < n) :
    (∃ ye eth ie yd ed : ℝ,
        compute_omega mode ye eth ie yd ed 0 ctrl 1 =
          Except.ok
            ((case1_result mode ctrl cs robot motor n).omega i,
             (case1_result mode ctrl cs robot motor n).s i,
             (case1_result mode ctrl cs robot motor n).beta i)) ∧
      (case1_result mode ctrl cs robot motor n).omega (n - 1) = 0 ∧
      (case1_result mode ctrl cs robot motor n).s (n - 1) = 0 ∧
      (case1_result mode ctrl cs robot motor n).beta (n - 1) = 0 := by
  refine ⟨?_, ?_, ?_, ?_⟩
  · rw [case1_result_omega_eq, case1_result_s_eq, case1_result_beta_eq,
      if_pos hi, if_pos hi, if_pos hi]
    exact case1_out_is_control_value mode ctrl cs motor n (i + 1) hv
  · rw [case1_result_omega_eq, if_neg (by omega)]
  · rw [case1_result_s_eq, if_neg (by omega)]
  · rw [case1_result_beta_eq, if_neg (by omega)]

/-- C4 witness: the theorem at the default Case-1 SMC run (n = 2001, i = 0). -/
theorem c4_witness :
    (∃ ye eth ie yd ed : ℝ,
        compute_omega ("SMC") ye eth ie yd ed 0 default_params 1 =
          Except.ok
            ((case1_result ("SMC") default_params default_case default_robot
                default_motor 2001).omega 0,
             (case1_result ("SMC") default_params default_case default_robot
                default_motor 2001).s 0,
             (case1_result ("SMC") default_params default_case default_robot
                default_motor 2001).beta 0)) ∧
      (case1_result ("SMC") default_params default_case default_robot
        default_motor 2001).omega 2000 = 0 ∧
      (case1_result ("SMC") default_params default_case default_robot
        default_motor 2001).s 2000 = 0 ∧
      (case1_result ("SMC") default_params default_case default_robot
        default_motor 2001).beta 2000 = 0 :=
  c4_triple_recorded_up_to_penultimate ("SMC") default_params default_case default_robot
    default_motor 2001 0 (by decide) (by norm_num)

/-- C4 counterexample: in the default Case-1 SMC run the last index (2000)
of the beta history holds 0, but every SMC control-law call returns
beta_eff = beta_max = 3, so the triple at the last index was not produced by
any control-law call. -/
theorem c4_counterexample :
    simulate_case1 ("SMC") default_params default_case default_robot default_motor =
        some (case1_result ("SMC") default_params default_case default_robot
          default_motor 2001) ∧
      ¬ (∀ i : ℕ, i < 2001 →
          ∃ ye eth ie yd ed oe : ℝ,
            compute_omega ("SMC") ye eth ie yd ed oe default_params 1 =
              Except.ok
                ((case1_result ("SMC") default_params default_case default_robot
                    default_motor 2001).omega i,
                 (case1_result ("SMC") default_params default_case default_robot
                    default_motor 2001).s i,
                 (case1_result ("SMC") default_params default_case default_robot
                    default_motor 2001).beta i)) := by
  refine ⟨sim_default_eq, ?_⟩
  intro hall
  obtain ⟨ye, eth, ie, yd, ed, oe, heq⟩ := hall 2000 (by norm_num)
  rw [compute_omega_smc ("SMC") (by decide)] at heq
  have hinj := Except.ok.inj heq
  have h33 := congrArg (fun p : ℝ × ℝ × ℝ => p.2.2) hinj
  simp only at h33
  rw [case1_result_beta_eq, if_neg (by norm_num)] at h33
  norm_num [default_params] at h33

/-- C5 (amended): for a non-decreasing breakpoint tuple, on (ξ4, ξ5] (with
x < ξ6) the membership is the first falling ramp ((ξ5−x)/(ξ5−ξ4))^γ — not a
flat μ = 1 segment; the ramp ((ξ6−x)/(ξ6−ξ5))^γ holds only on (ξ5, ξ6); and
the flat μ = 1 region is (ξ2, ξ4] (with x < ξ6). -/
theorem c5_hfn_falling_region (xi1 xi2 xi3 xi4 xi5 xi6 gamma x : ℝ)
    (h12 : xi1 ≤ xi2) (h23 : xi2 ≤ xi3) (h34 : xi3 ≤ xi4) (h45 : xi4 ≤ xi5) :
    (xi4 < x → x ≤ xi5 → x < xi6 →
        hfn_mu x (xi1, xi2, xi3, xi4, xi5, xi6) gamma = ((xi5 - x) / (xi5 - xi4)) ^ gamma) ∧
      (xi5 < x → x < xi6 →
        hfn_mu x (xi1, xi2, xi3, xi4, xi5, xi6) gamma = ((xi6 - x) / (xi6 - xi5)) ^ gamma) ∧
      (xi2 < x → x ≤ xi4 → x < xi6 →
        hfn_mu x (xi1, xi2, xi3, xi4, xi5, xi6) gamma = 1) :=
  ⟨fun h4 h5 h6 => hfn_mu_branch_mid _ _ _ _ _ _ _ _ h12 h23 h34 h4 h5 h6,
   fun h5 h6 => hfn_mu_branch_down _ _ _ _ _ _ _ _ h12 h23 h34 h45 h5 h6,
   fun h2 h4 h6 => hfn_mu_branch_plateau _ _ _ _ _ _ _ _ h12 h2 h4 h6⟩

/-- C5 witness: the theorem at the default breakpoints, γ = 1, x = 0.22 in
(ξ5, ξ6). -/
theorem c5_witness :
    hfn_mu 0.22 ((0 : ℝ), 0.05, 0.10, 0.15, 0.20, 0.25) 1 =
      (((0.25 : ℝ) - 0.22) / (0.25 - 0.20)) ^ (1 : ℝ) :=
  (c5_hfn_falling_region 0 0.05 0.10 0.15 0.20 0.25 1 0.22 (by norm_num) (by norm_num)
    (by norm_num) (by norm_num)).2.1 (by norm_num) (by norm_num)

/-- C5 counterexample: at the default breakpoints, γ = 1 and x = 0.175
(so ξ4 < x < ξ6, indeed ξ4 < x < ξ5), the membership is 0.5: it differs
both from the claimed falling ramp ((ξ6−x)/(ξ6−ξ5))^γ = 1.5 and from the
claimed flat value μ = 1 between ξ4 and ξ5. -/
theorem c5_counterexample :
    hfn_mu 0.175 ((0 : ℝ), 0.05, 0.10, 0.15, 0.20, 0.25) 1 = 0.5 ∧
      (((0.25 : ℝ) - 0.175) / (0.25 - 0.20)) ^ (1 : ℝ) = 1.5 ∧
      (0.5 : ℝ) ≠ 1.5 ∧ (0.5 : ℝ) ≠ 1 := by
  refine ⟨?_, ?_, by norm_num, by norm_num⟩
  · rw [hfn_mu_branch_mid 0 0.05 0.10 0.15 0.20 0.25 1 0.175 (by norm_num) (by norm_num)
      (by norm_num) (by norm_num) (by norm_num) (by norm_num), Real.rpow_one]
    norm_num
  · rw [Real.rpow_one]
    norm_num

/-- C6 (amended): in the default Case-1 line scenario (SMC, default
parameters), the recorded e_y[0] equals the projection of
(x0−x_ref0, y0−y_ref0) into the θ_ref0 frame, whose value is
+√3/4 ≈ +0.433 (positive, not ≈ −0.433). -/
theorem c6_initial_lateral_error (res : SimResult)
    (h : simulate_case1 ("SMC") default_params default_case default_robot default_motor =
      some res) :
    res.e_y 0 =
        -(default_case.x0 - default_case.x_ref0) * Real.sin default_case.theta_ref0
          + (default_case.y0 - default_case.y_ref0) * Real.cos default_case.theta_ref0 ∧
      |res.e_y 0 - 0.433| < 1 / 1000 := by
  have hres : res = case1_result ("SMC") default_params default_case default_robot
      default_motor 2001 := by
    rw [sim_default_eq] at h
    exact (Option.some.inj h).symm
  subst hres
  constructor
  · rw [default_run_e_y0]
    show Real.sqrt 3 / 4 =
      -(default_case.x0 - default_case.x_ref0) * Real.sin default_case.theta_ref0
        + (default_case.y0 - default_case.y_ref0) * Real.cos default_case.theta_ref0
    simp only [default_case]
    rw [Real.sin_pi_div_three]
    ring
  · rw [default_run_e_y0]
    have h1 := sqrt3_lb
    have h2 := sqrt3_ub
    rw [abs_lt]
    constructor <;> nlinarith

/-- C6 witness: the theorem at the default run. -/
theorem c6_witness :
    (case1_result ("SMC") default_params default_case default_robot default_motor 2001).e_y 0 =
        -(default_case.x0 - default_case.x_ref0) * Real.sin default_case.theta_ref0
          + (default_case.y0 - default_case.y_ref0) * Real.cos default_case.theta_ref0 ∧
      |(case1_result ("SMC") default_params default_case default_robot
          default_motor 2001).e_y 0 - 0.433| < 1 / 1000 :=
  c6_initial_lateral_error _ sim_default_eq

/-- C6 counterexample: the recorded e_y[0] of the default run is larger than
2/5, so it is not approximately −0.433 (its distance from −0.433 exceeds
2/5). -/
theorem c6_counterexample :
    (2 / 5 : ℝ) <
        (case1_result ("SMC") default_params default_case default_robot
          default_motor 2001).e_y 0 ∧
      ¬ |(case1_result ("SMC") default_params default_case default_robot
          default_motor 2001).e_y 0 - (-0.433)| < 2 / 5 := by
  rw [default_run_e_y0]
  have h1 := sqrt3_lb
  constructor
  · nlinarith
  · rw [abs_lt]
    intro hc
    nlinarith [hc.2]

/-- C7 (amended): with the extra invariant 0 ≤ beta_min (absent from the
claim's list but necessary), every successful control-law call in either
mode with γ = 1 produces a switching term of magnitude at most beta_max:
|beta_eff · tanh(s/Δ)| ≤ beta_max. -/
theorem c7_switching_term_bounded (p : ControllerParams) (mode : String)
    (ye eth ie yd ed oe om s bt : ℝ)
    (hd : 0 < p.delta) (hb0 : 0 ≤ p.beta_min) (hbb : p.beta_min ≤ p.beta_max)
    (h : compute_omega mode ye eth ie yd ed oe p 1 = Except.ok (om, s, bt)) :
    |bt * Real.tanh (s / p.delta)| ≤ p.beta_max := by
  have hbm : (0 : ℝ) ≤ p.beta_max := le_trans hb0 hbb
  by_cases hs : str_upper mode = ("SMC" : String)
  · rw [compute_omega_smc mode hs] at h
    have hbt := congrArg (fun q : ℝ × ℝ × ℝ => q.2.2) (Except.ok.inj h)
    simp only at hbt
    rw [← hbt, abs_mul, abs_of_nonneg hbm]
    nlinarith [tanh_abs_le_one (s / p.delta), abs_nonneg (Real.tanh (s / p.delta))]
  · by_cases ha : str_upper mode = ("AFSMC" : String)
    · rw [compute_omega_afsmc mode hs ha] at h
      have hbt := congrArg (fun q : ℝ × ℝ × ℝ => q.2.2) (Except.ok.inj h)
      simp only at hbt
      have hmem := hfn_beta_mem (Real.sqrt (ye ^ 2 + eth ^ 2))
        (Real.sqrt (yd ^ 2 + ed ^ 2)) p hbb
      rw [hbt] at hmem
      rw [abs_mul, abs_of_nonneg (le_trans hb0 hmem.1)]
      nlinarith [tanh_abs_le_one (s / p.delta), abs_nonneg (Real.tanh (s / p.delta)),
        hmem.2, le_trans hb0 hmem.1]
    · rw [compute_omega_unknown mode hs ha] at h
      exact absurd h (by simp)

/-- C7 witness: the theorem at the default parameters, SMC mode and zero
inputs, where the call returns (0, 0, 3). -/
theorem c7_witness :
    |(3 : ℝ) * Real.tanh (0 / default_params.delta)| ≤ default_params.beta_max :=
  c7_switching_term_bounded default_params ("SMC") 0 0 0 0 0 0 0 0 3
    (by norm_num [default_params]) (by norm_num [default_params])
    (by norm_num [default_params])
    (by
      rw [compute_omega_smc ("SMC") (by decide)]
      norm_num [default_params, Real.tanh_zero])

/-- C7 counterexample: parameters with delta = 1 > 0,
beta_min = beta_max = −1 and all six breakpoints equal to 0 satisfy every
invariant listed by the claim, yet the SMC switching term at zero inputs
has magnitude 0, which is not ≤ beta_max = −1. -/
theorem c7_counterexample :
    (0 < neg_beta_params.delta ∧ neg_beta_params.beta_min ≤ neg_beta_params.beta_max ∧
        neg_beta_params.hfn_breakpoints = ((0 : ℝ), 0, 0, 0, 0, 0)) ∧
      compute_omega ("SMC") 0 0 0 0 0 0 neg_beta_params 1 =
        Except.ok (0, 0, neg_beta_params.beta_max) ∧
      ¬ |neg_beta_params.beta_max * Real.tanh (0 / neg_beta_params.delta)| ≤
          neg_beta_params.beta_max := by
  refine ⟨⟨by norm_num [neg_beta_params], by norm_num [neg_beta_params], rfl⟩, ?_, ?_⟩
  · rw [compute_omega_smc ("SMC") (by decide)]
    norm_num [neg_beta_params, Real.tanh_zero]
  · norm_num [neg_beta_params, Real.tanh_zero]

/-- C8: for every motor with v_max > 0 and a_max > 0, the actuator update is
closed under its saturations — after each motor update the new v_dot has
|v_dot| ≤ a_max and the new v_state lies in [0, v_max] — and consequently at
every step k of a Case-1 run the recorded actuator state satisfies
v_state ∈ [0, v_max] and |v_dot| ≤ a_max. -/
theorem c8_actuator_saturation (motor : MotorParams) (hv : 0 < motor.v_max)
    (ha : 0 < motor.a_max) :
    (∀ v_ref dt vs vd : ℝ,
        0 ≤ (motor_step motor v_ref dt vs vd).1 ∧
          (motor_step motor v_ref dt vs vd).1 ≤ motor.v_max ∧
          |(motor_step motor v_ref dt vs vd).2| ≤ motor.a_max) ∧
      ∀ (mode : String) (ctrl : ControllerParams) (cs : CaseStudyParams) (n k : ℕ),
        0 ≤ (case1_states mode ctrl cs motor n k).v_state ∧
          (case1_states mode ctrl cs motor n k).v_state ≤ motor.v_max ∧
          |(case1_states mode ctrl cs motor n k).v_dot| ≤ motor.a_max := by
  refine ⟨motor_step_bounds motor hv ha, ?_⟩
  intro mode ctrl cs n k
  cases k with
  | zero =>
    have h1 : (case1_states mode ctrl cs motor n 0).v_state = 0 := rfl
    have h2 : (case1_states mode ctrl cs motor n 0).v_dot = 0 := rfl
    rw [h1, h2]
    refine ⟨le_refl 0, hv.le, ?_⟩
    rw [abs_zero]
    exact ha.le
  | succ k =>
    have hb := motor_step_bounds motor hv ha cs.v_cmd cs.dt
      (case1_states mode ctrl cs motor n k).v_state
      (case1_states mode ctrl cs motor n k).v_dot
    rw [case1_states, case1_step_snd_v, case1_step_snd_v_dot]
    exact hb

/-- C8 witness: the run-level part of the theorem at the default motor and
the default Case-1 configuration, step k = 1. -/
theorem c8_witness :
    0 ≤ (case1_states ("SMC") default_params default_case default_motor 2001 1).v_state ∧
      (case1_states ("SMC") default_params default_case default_motor 2001 1).v_state ≤
        default_motor.v_max ∧
      |(case1_states ("SMC") default_params default_case default_motor 2001 1).v_dot| ≤
        default_motor.a_max :=
  (c8_actuator_saturation default_motor (by norm_num [default_motor])
    (by norm_num [default_motor])).2 ("SMC") default_params default_case 2001 1

/-- C9 (amended): `compute_omega` dispatches on the upper-cased mode string:
any string whose upper-casing is neither SMC nor AFSMC fails fast with the
Unknown-mode error and no fallback, while any string upper-casing to SMC or
AFSMC (e.g. the lower-case "smc") is accepted and never raises. -/
theorem c9_mode_dispatch (mode : String) (ye eth ie yd ed oe : ℝ) (p : ControllerParams)
    (g : ℝ) :
    (valid_mode mode = false →
        compute_omega mode ye eth ie yd ed oe p g =
          Except.error (("Unknown mode: " : String) ++ mode)) ∧
      (valid_mode mode = true →
        ∃ tr : ℝ × ℝ × ℝ, compute_omega mode ye eth ie yd ed oe p g = Except.ok tr) := by
  constructor
  · intro hf
    have hs : str_upper mode ≠ ("SMC" : String) := by
      intro hc
      rw [(valid_mode_iff mode).mpr (Or.inl hc)] at hf
      exact Bool.noConfusion hf
    have ha : str_upper mode ≠ ("AFSMC" : String) := by
      intro hc
      rw [(valid_mode_iff mode).mpr (Or.inr hc)] at hf
      exact Bool.noConfusion hf
    exact compute_omega_unknown mode hs ha ye eth ie yd ed oe p g
  · intro ht
    exact ⟨_, compute_omega_ok_of_valid mode ht ye eth ie yd ed oe p g⟩

/-- C9 witness: at the unknown mode string "foo" the call fails with the
Unknown-mode error. -/
theorem c9_witness :
    valid_mode ("foo") = false ∧
      compute_omega ("foo") 0 0 0 0 0 0 default_params 1 =
        Except.error (("Unknown mode: " : String) ++ ("foo" : String)) :=
  ⟨by decide, (c9_mode_dispatch ("foo") 0 0 0 0 0 0 default_params 1).1 (by decide)⟩

/-- C9 counterexample: the mode string "smc" differs from both enumeration
values SMC and AFSMC, yet `compute_omega` accepts it (matching is on the
upper-cased string) and returns a result instead of failing. -/
theorem c9_counterexample :
    ("smc" : String) ≠ ("SMC" : String) ∧ ("smc" : String) ≠ ("AFSMC" : String) ∧
      ∃ tr : ℝ × ℝ × ℝ,
        compute_omega ("smc") 0 0 0 0 0 0 default_params 1 = Except.ok tr :=
  ⟨by decide, by decide,
    ⟨_, compute_omega_ok_of_valid ("smc") (by decide) 0 0 0 0 0 0 default_params 1⟩⟩

/-- C10: for a non-decreasing breakpoint tuple, on each ramp branch of
`hfn_mu` that is reachable (the guard of the branch holds and all earlier
guards fail) the corresponding divisor ξ2−ξ1, ξ5−ξ4 or ξ6−ξ5 is strictly
positive — whenever two adjacent breakpoints coincide the branch condition
is unsatisfiable — so no division by zero is reachable and `hfn_mu` equals
the ramp expression there. -/
theorem c10_no_division_by_zero (xi1 xi2 xi3 xi4 xi5 xi6 gamma x : ℝ)
    (h12 : xi1 ≤ xi2) (h23 : xi2 ≤ xi3) (h34 : xi3 ≤ xi4) (h45 : xi4 ≤ xi5)
    (h56 : xi5 ≤ xi6) :
    (xi1 < x → x ≤ xi2 → x < xi6 →
        0 < xi2 - xi1 ∧
          hfn_mu x (xi1, xi2, xi3, xi4, xi5, xi6) gamma =
            ((x - xi1) / (xi2 - xi1)) ^ gamma) ∧
      (xi4 < x → x ≤ xi5 → x < xi6 →
        0 < xi5 - xi4 ∧
          hfn_mu x (xi1, xi2, xi3, xi4, xi5, xi6) gamma =
            ((xi5 - x) / (xi5 - xi4)) ^ gamma) ∧
      (xi5 < x → x < xi6 →
        0 < xi6 - xi5 ∧
          hfn_mu x (xi1, xi2, xi3, xi4, xi5, xi6) gamma =
            ((xi6 - x) / (xi6 - xi5)) ^ gamma) :=
  ⟨fun h1 h2 h6 => ⟨by linarith, hfn_mu_branch_up _ _ _ _ _ _ _ _ h1 h2 h6⟩,
   fun h4 h5 h6 => ⟨by linarith, hfn_mu_branch_mid _ _ _ _ _ _ _ _ h12 h23 h34 h4 h5 h6⟩,
   fun h5 h6 => ⟨by linarith, hfn_mu_branch_down _ _ _ _ _ _ _ _ h12 h23 h34 h45 h5 h6⟩⟩

/-- C10 witness: the rising-ramp part at the default breakpoints, γ = 1 and
x = 0.03 ∈ (ξ1, ξ2]. -/
theorem c10_witness :
    0 < (0.05 : ℝ) - 0 ∧
      hfn_mu 0.03 ((0 : ℝ), 0.05, 0.10, 0.15, 0.20, 0.25) 1 =
        (((0.03 : ℝ) - 0) / (0.05 - 0)) ^ (1 : ℝ) :=
  (c10_no_division_by_zero 0 0.05 0.10 0.15 0.20 0.25 1 0.03 (by norm_num) (by norm_num)
    (by norm_num) (by norm_num) (by norm_num)).1 (by norm_num) (by norm_num) (by norm_num)
